import Mathlib

/-!
Shallow embedding of the ResearchX route handlers.

The repository is a set of Express-style HTTP route handlers:
* a plagiarism router (`validateTextInput` middleware, `POST /check`,
  `GET /status`) proxying the Quetext API;
* a payment router (`GET /initiate/:projectId`, `POST /verify/:projectId`)
  proxying Paystack and mutating a Firestore project record;
* a Supabase signup handler and a generic Express error-handling middleware.

Each handler is embedded as a pure function from the request data and an
explicit "world" (the outcomes of the external calls it may make) to the
pair of (trace of outbound effects, HTTP response).  The trace records, in
program order, every outbound provider call that was issued (including calls
that subsequently threw) and every document-store update that was performed.
JavaScript numbers are modelled as rationals; JS strings as Lean `String`
(the request text, whose length and truncation matter, as `List Char` so
that code-unit counting and `substring` are explicit).  Timestamp-valued
fields (`serverTimestamp`, `Date.now()` inside the payment reference,
`approvedAt`, `updatedAt`) carry no information relevant to the claims and
are either threaded as an opaque `now` value or omitted from update records.
-/

namespace ResearchX

/-- An axios rejection, as discriminated by the catch blocks in the source:
`error.response` (the provider answered with a non-2xx status, carrying
`response.status`, `response.data.message` and `response.statusText`),
`error.request` (no response received), or any other thrown error.
Every variant carries the JS `error.message` string. -/
inductive AxiosError
  | response (respStatus : Nat) (dataMessage : Option String) (statusText : String) (errMsg : String)
  | request (errMsg : String)
  | other (errMsg : String)
deriving DecidableEq

/-- The JS `error.message` field of a caught error. -/
def AxiosError.errMessage : AxiosError → String
  | .response _ _ _ m => m
  | .request m => m
  | .other m => m

/-- JS `a || b` on an optional string: the left operand is used unless it is
absent (`undefined`) or falsy (the empty string). -/
def jsOrStr (o : Option String) (d : String) : String :=
  match o with
  | some s => if s.isEmpty then d else s
  | none => d

/-- JS truthiness test for an optional string: `!x` holds when the value is
absent (`undefined`) or the empty string. -/
def jsFalsyStr (o : Option String) : Bool :=
  (o.getD "").isEmpty

namespace Plagiarism

def MIN_TEXT_LENGTH : Nat := 100

def MAX_TEXT_LENGTH : Nat := 10000

def SUPPORTED_LANGUAGES : List String := ["en", "es", "fr", "de"]

/-- A JSON value bound to the body's `text` field: either a string (as its
sequence of code units) or some non-string value, which `typeof text !==
'string'` rejects.  A falsy non-string (`0`, `null`, `false`) is rejected by
the same `if` via `!text`, so the two cases land in the same 400 branch. -/
inductive BodyVal
  | str (s : List Char)
  | nonString
deriving DecidableEq

/-- Request body of `POST /check`: `{text, language?, detailed?}`.
`language` defaults to `'en'` and `detailed` to `false` when absent. -/
structure CheckBody where
  text : Option BodyVal := none
  language : Option String := none
  detailed : Option Bool := none
deriving DecidableEq

/-- JSON response of `POST /check`, with every field that any branch of the
handler may set; `none` models an absent field. -/
structure CheckResp where
  status : Nat
  success : Option Bool := none
  error : Option String := none
  details : Option String := none
  score : Option ℚ := none
  plagiarism : Option Bool := none
  warnings : Option (List String) := none
  language : Option String := none
  «matches» : Option (List String) := none
deriving DecidableEq

/-- The data of a successful Quetext `/v1/plagiarism` response. -/
structure QuetextData where
  score : ℚ
  plagiarism : Bool
  warnings : Option (List String) := none
  «matches» : Option (List String) := none
deriving DecidableEq

/-- Output of the `validateTextInput` middleware: the values it stores on
`req.validatedText` and `req.language` before calling `next()`. -/
structure ValidInput where
  validatedText : List Char
  language : String
deriving DecidableEq

/-- The `validateTextInput` middleware: rejects (400) missing or non-string
or empty text, text shorter than `MIN_TEXT_LENGTH` or longer than
`MAX_TEXT_LENGTH`, and a language outside `SUPPORTED_LANGUAGES`; otherwise
passes `text.substring(0, MAX_TEXT_LENGTH)` and the language through. -/
def validateTextInput (body : CheckBody) : Except CheckResp ValidInput :=
  match body.text with
  | none =>
    .error { status := 400, success := some false,
             error := some "Text is required and must be a string" }
  | some .nonString =>
    .error { status := 400, success := some false,
             error := some "Text is required and must be a string" }
  | some (.str s) =>
    if s.isEmpty then
      .error { status := 400, success := some false,
               error := some "Text is required and must be a string" }
    else if s.length < MIN_TEXT_LENGTH then
      .error { status := 400, success := some false,
               error := some "Text must be at least 100 characters long" }
    else if s.length > MAX_TEXT_LENGTH then
      .error { status := 400, success := some false,
               error := some "Text must be less than 10000 characters" }
    else
      let language := body.language.getD "en"
      if ¬ (SUPPORTED_LANGUAGES.contains language) then
        .error { status := 400, success := some false,
                 error := some "Unsupported language. Supported languages: en, es, fr, de" }
      else
        .ok { validatedText := s.take MAX_TEXT_LENGTH, language := language }

/-- An outbound call issued by the check route: the POST to the Quetext
plagiarism endpoint with its `{text, language, scan}` payload. -/
inductive CheckAction
  | callQuetext (text : List Char) (language : String) (scan : Nat)
deriving DecidableEq

/-- Environment and external outcomes for one `POST /check` invocation:
whether `QUETEXT_API_KEY` is configured, the `NODE_ENV` value, and how the
provider call would resolve if issued. -/
structure CheckWorld where
  apiKeyConfigured : Bool
  nodeEnv : String
  providerResult : Except AxiosError QuetextData

/-- The catch block of `POST /check`: maps a thrown error to a status code
and message per the axios discrimination, adding `details` in development. -/
def checkCatch (nodeEnv : String) (e : AxiosError) : CheckResp :=
  let details := if nodeEnv == "development" then some e.errMessage else none
  match e with
  | .response st msg stTxt _ =>
    { status := st, success := some false,
      error := some (jsOrStr msg ("API error: " ++ stTxt)), details := details }
  | .request _ =>
    { status := 500, success := some false,
      error := some "No response from plagiarism service", details := details }
  | .other _ =>
    { status := 500, success := some false,
      error := some "Plagiarism check failed", details := details }

/-- The `POST /check` handler (after the `validateTextInput` middleware):
throws when no API key is configured, otherwise posts the validated text to
the provider and reshapes the response, including `matches` only when a
detailed scan was requested. -/
def checkHandler (body : CheckBody) (w : CheckWorld) : List CheckAction × CheckResp :=
  match validateTextInput body with
  | .error r => ([], r)
  | .ok v =>
    let detailed := body.detailed.getD false
    if ¬ w.apiKeyConfigured then
      ([], checkCatch w.nodeEnv (.other "Plagiarism check service is not configured"))
    else
      let call := CheckAction.callQuetext v.validatedText v.language (if detailed then 1 else 0)
      match w.providerResult with
      | .error e => ([call], checkCatch w.nodeEnv e)
      | .ok d =>
        ([call],
         { status := 200, success := some true,
           score := some d.score, plagiarism := some d.plagiarism,
           warnings := some (d.warnings.getD []),
           language := some v.language,
           «matches» := if detailed then some (d.«matches».getD []) else none })

/-- JSON response of `GET /status` (the `limits`/`provider`/`api_status`
payload fields of the operational branch are omitted: no claim concerns
them; `statusField` is the body's `status` property, `status` the HTTP
code). -/
structure StatusResp where
  status : Nat
  service : String
  statusField : String
  message : Option String := none
  success : Option Bool := none
  error : Option String := none
deriving DecidableEq

/-- The `GET /status` handler: `disabled` when no API key is configured,
`operational` when the probe succeeds, otherwise 503 `unavailable`. -/
def statusHandler (apiKeyConfigured : Bool) (probe : Except AxiosError Unit) : StatusResp :=
  if ¬ apiKeyConfigured then
    { status := 200, service := "plagiarism", statusField := "disabled",
      message := some "QUETEXT_API_KEY not configured" }
  else
    match probe with
    | .ok _ => { status := 200, service := "plagiarism", statusField := "operational" }
    | .error _ =>
      { status := 503, service := "plagiarism", statusField := "unavailable",
        error := some "Unable to connect to plagiarism service" }

end Plagiarism

namespace Payment

def ACCESS_BANK_ACCOUNT : String := "0818022720"

def BANK_CODE : String := "044"

def TRANSACTION_FEE_PERCENTAGE : ℚ := 1.5

/-- The fields of a project document read by the payment routes.  `price`
is `none` when the document has no such field; `authorId` and `title` are
carried only into provider metadata and are irrelevant to the claims. -/
structure Project where
  price : Option ℚ := none
  authorEmail : Option String := none
  authorId : String := ""
  title : String := ""
deriving DecidableEq

/-- The data of a successful Paystack `/transaction/initialize` response. -/
structure InitData where
  authorization_url : String
  reference : String
deriving DecidableEq

/-- The fields written onto the project document by the initiate route
(`updatedAt`, a server timestamp, is omitted). -/
structure InitiateUpdate where
  paymentReference : String
  paymentStatus : String
  transactionFee : ℚ
  totalAmount : ℚ
  bankAccount : String
deriving DecidableEq

/-- An outbound effect of the initiate route: the initialize call (with the
email, kobo amount, and constructed reference it posts) or the project
document update. -/
inductive InitAction
  | callInitialize (email : String) (amount : ℤ) (reference : String)
  | updateProject (u : InitiateUpdate)
deriving DecidableEq

/-- JSON response of `GET /initiate/:projectId`. -/
structure InitResp where
  status : Nat
  success : Option Bool := none
  error : Option String := none
  authorizationUrl : Option String := none
  bankAccount : Option String := none
  accountName : Option String := none
  bankName : Option String := none
  amount : Option ℚ := none
  transactionFee : Option ℚ := none
deriving DecidableEq

/-- External outcomes for one initiate invocation: the project document
fetch, the initialize call outcome, and `Date.now()`. -/
structure InitWorld where
  projectDoc : Option Project
  initResult : Except AxiosError InitData
  now : Nat

/-- The catch block shared in shape by both payment routes: a 500 whose
message is `error.response?.data?.message || fallback`. -/
def paymentCatch (e : AxiosError) (fallback : String) : Option String :=
  match e with
  | .response _ msg _ _ => some (jsOrStr msg fallback)
  | .request _ => some fallback
  | .other _ => some fallback

/-- The `GET /initiate/:projectId` handler: validates the project id, loads
the project (404 if absent, 400 if its price is missing or non-positive),
computes the 1.5% transaction fee and total, initializes a Paystack
transaction for the total in kobo, persists the reference/status/fee fields
onto the project, and returns the authorization URL. -/
def initiateHandler (projectId : Option String) (w : InitWorld) : List InitAction × InitResp :=
  if jsFalsyStr projectId then
    ([], { status := 400, success := some false, error := some "Invalid project ID" })
  else
    let pid := projectId.getD ""
    match w.projectDoc with
    | none => ([], { status := 404, success := some false, error := some "Project not found" })
    | some project =>
      match project.price with
      | none =>
        ([], { status := 400, success := some false, error := some "Invalid project price" })
      | some price =>
        if price ≤ 0 then
          ([], { status := 400, success := some false, error := some "Invalid project price" })
        else
          let transactionFee := price * (TRANSACTION_FEE_PERCENTAGE / 100)
          let totalAmount := price + transactionFee
          let call := InitAction.callInitialize
            (project.authorEmail.getD "user@example.com")
            (round (totalAmount * 100))
            ("RESEARCHX-" ++ pid ++ "-" ++ toString w.now)
          match w.initResult with
          | .error e =>
            ([call], { status := 500, success := some false,
                       error := paymentCatch e "Payment initialization failed" })
          | .ok d =>
            ([call,
              InitAction.updateProject
                { paymentReference := d.reference, paymentStatus := "initiated",
                  transactionFee := transactionFee, totalAmount := totalAmount,
                  bankAccount := ACCESS_BANK_ACCOUNT }],
             { status := 200, success := some true,
               authorizationUrl := some d.authorization_url,
               bankAccount := some ACCESS_BANK_ACCOUNT,
               accountName := some "ResearchX Platform",
               bankName := some "Access Bank",
               amount := some totalAmount, transactionFee := some transactionFee })

/-- The data of a successful Paystack `/transaction/verify/:ref` response:
the transaction status string, the amount in kobo, the reference, and the
`paid_at` / `authorization.bank` strings copied into `paymentDetails`. -/
structure VerifyData where
  status : String
  amount : ℚ
  reference : String
  paid_at : String
  authorization_bank : String
deriving DecidableEq

/-- The `paymentDetails` object stored on a completed payment. -/
structure PaymentDetails where
  amount : ℚ
  paidAt : String
  bank : String
  transferTo : String
deriving DecidableEq

/-- The fields written onto the project document by the verify route: the
completed branch sets all of them, the failed branch sets only
`paymentStatus := "failed"` (timestamps `approvedAt`/`updatedAt` omitted). -/
structure VerifyUpdate where
  paymentStatus : String
  status : Option String := none
  transactionReference : Option String := none
  paymentDetails : Option PaymentDetails := none
deriving DecidableEq

/-- An outbound effect of the verify route, in program order: the verify
GET, the transfer-recipient POST, the transfer POST (with the amount it
posts), or the project document update. -/
inductive PayAction
  | callVerify (reference : String)
  | callCreateRecipient (account : String) (bankCode : String)
  | callTransfer (amount : ℚ) (recipient : String)
  | updateProject (u : VerifyUpdate)
deriving DecidableEq

/-- External outcomes for one verify invocation; each field is how the
corresponding provider call would resolve if issued. -/
structure VerifyWorld where
  verifyResult : Except AxiosError VerifyData
  recipientResult : Except AxiosError String
  transferResult : Except AxiosError Unit

/-- JSON response of `POST /verify/:projectId`. -/
structure VerifyResp where
  status : Nat
  success : Option Bool := none
  error : Option String := none
  message : Option String := none
  bankAccount : Option String := none
  amount : Option ℚ := none
deriving DecidableEq

/-- The 500 response of the verify route's catch block. -/
def verifyCatchResp (e : AxiosError) : VerifyResp :=
  { status := 500, success := some false,
    error := paymentCatch e "Payment verification failed" }

/-- The `POST /verify/:projectId` handler: rejects a missing reference or
project id, verifies the transaction with Paystack, and on a transaction
whose status is the provider's success value (`"success"`) creates a
transfer recipient, transfers the amount minus 1.5% to it, and only then
marks the project completed; on any other status it marks the project
failed and returns 400.  A call that throws appears in the trace (it was
issued) and control jumps to the catch block. -/
def verifyHandler (projectId : Option String) (reference : Option String)
    (w : VerifyWorld) : List PayAction × VerifyResp :=
  if jsFalsyStr reference || jsFalsyStr projectId then
    ([], { status := 400, success := some false,
           error := some "Missing reference or project ID" })
  else
    let ref := reference.getD ""
    match w.verifyResult with
    | .error e => ([.callVerify ref], verifyCatchResp e)
    | .ok d =>
      if d.status = "success" then
        match w.recipientResult with
        | .error e =>
          ([.callVerify ref, .callCreateRecipient ACCESS_BANK_ACCOUNT BANK_CODE],
           verifyCatchResp e)
        | .ok recipientCode =>
          let transferAmount := d.amount - d.amount * 0.015
          match w.transferResult with
          | .error e =>
            ([.callVerify ref, .callCreateRecipient ACCESS_BANK_ACCOUNT BANK_CODE,
              .callTransfer transferAmount recipientCode],
             verifyCatchResp e)
          | .ok _ =>
            ([.callVerify ref, .callCreateRecipient ACCESS_BANK_ACCOUNT BANK_CODE,
              .callTransfer transferAmount recipientCode,
              .updateProject
                { paymentStatus := "completed", status := some "approved",
                  transactionReference := some d.reference,
                  paymentDetails := some
                    { amount := d.amount / 100, paidAt := d.paid_at,
                      bank := d.authorization_bank,
                      transferTo := ACCESS_BANK_ACCOUNT } }],
             { status := 200, success := some true,
               message := some "Payment verified and funds transferred to Access Bank",
               bankAccount := some ACCESS_BANK_ACCOUNT,
               amount := some (d.amount / 100) })
      else
        ([.callVerify ref, .updateProject { paymentStatus := "failed" }],
         { status := 400, success := some false, error := some "Payment not successful" })

end Payment

namespace Auth

/-- Request body of the signup API route. -/
structure SignupBody where
  email : Option String := none
  password : Option String := none
deriving DecidableEq

/-- JSON response of the signup API route.  Note no branch of the handler
sets a `success` field: the bodies are `{error}`, or `{user}` on 200. -/
structure SignupResp where
  status : Nat
  success : Option Bool := none
  error : Option String := none
  user : Option String := none
deriving DecidableEq

/-- Outcome of `supabase.auth.signUp`: a user, a supabase error (returned
with its message), or a thrown exception. -/
inductive SupabaseResult
  | ok (user : String)
  | err (errMsg : String)
  | thrown
deriving DecidableEq

/-- The signup handler (`client/api/auth/signup.js`): 405 on a non-POST
method, 400 when email or password is missing or empty, 400 with the
provider's message on a signup error, 500 on a thrown exception, else 200
with the user object.  No response includes a `success` field. -/
def signupHandler (method : String) (body : Option SignupBody)
    (w : SupabaseResult) : SignupResp :=
  if method ≠ "POST" then
    { status := 405, error := some "Method not allowed" }
  else
    let b := body.getD {}
    if jsFalsyStr b.email || jsFalsyStr b.password then
      { status := 400, error := some "Email and password are required" }
    else
      match w with
      | .err m => { status := 400, error := some m }
      | .thrown => { status := 500, error := some "Server error" }
      | .ok u => { status := 200, user := some u }

end Auth

namespace Server

/-- The error object received by the Express error-handling middleware. -/
structure ErrObj where
  statusCode : Option Nat := none
  errMsg : String := ""
  stack : String := ""
  details : Option String := none
deriving DecidableEq

/-- JSON response of the error-handling middleware.  Its body is
`{status: 'error', message, stack?, details?}` — `statusField` is the
body's `status` property and `status` the HTTP code; no branch sets a
`success` or `error` field. -/
structure ErrResp where
  status : Nat
  statusField : String
  message : String
  success : Option Bool := none
  error : Option String := none
  stack : Option String := none
  details : Option String := none
deriving DecidableEq

/-- JS `err.statusCode || 500`: 500 when the code is absent or zero. -/
def jsOrNat (o : Option Nat) (d : Nat) : Nat :=
  match o with
  | some n => if n = 0 then d else n
  | none => d

/-- The error-handling middleware (`server/errorHandler.js`): responds with
the error's status code (default 500) and a body of `status: 'error'` plus
a message (generic in production), with stack and details outside
production. -/
def errorHandler (nodeEnv : String) (err : ErrObj) : ErrResp :=
  { status := jsOrNat err.statusCode 500,
    statusField := "error",
    message := if nodeEnv == "production" then "Something went wrong" else err.errMsg,
    stack := if nodeEnv == "production" then none else some err.stack,
    details := if nodeEnv == "production" then none else err.details }

end Server

end ResearchX

namespace ResearchX

open Payment

/-- C2: for every initiate request on an existing project with positive
price, when the provider's initialize call succeeds, the project record is
updated with `paymentStatus = "initiated"` and
`totalAmount = price * (1 + feeRate)` where `feeRate` is the fixed 1.5%
transaction fee percentage. -/
theorem c2_initiate_persists_initiated_total
    (pid : String) (hpid : pid ≠ "") (w : InitWorld) (proj : Project) (p : ℚ)
    (hdoc : w.projectDoc = some proj) (hprice : proj.price = some p) (hpos : 0 < p)
    (d : InitData) (hinit : w.initResult = .ok d) :
    ∃ u, InitAction.updateProject u ∈ (initiateHandler (some pid) w).1 ∧
      u.paymentStatus = "initiated" ∧
      u.totalAmount = p * (1 + TRANSACTION_FEE_PERCENTAGE / 100) ∧
      (initiateHandler (some pid) w).2.status = 200 ∧
      (initiateHandler (some pid) w).2.success = some true := by
  have hne : ¬ p ≤ 0 := not_le.mpr hpos
  refine ⟨{ paymentReference := d.reference, paymentStatus := "initiated",
            transactionFee := p * (TRANSACTION_FEE_PERCENTAGE / 100),
            totalAmount := p + p * (TRANSACTION_FEE_PERCENTAGE / 100),
            bankAccount := ACCESS_BANK_ACCOUNT }, ?_, rfl, by ring, ?_, ?_⟩ <;>
    simp [initiateHandler, jsFalsyStr, String.isEmpty_iff, hpid, hdoc, hprice, hne, hinit]

/-- C5: for every initiate request whose project record exists but has a
missing or non-positive price, the route responds with HTTP 400 and
`success: false`, and no call to the payment provider is made and the
project record is not modified (the effect trace is empty). -/
theorem c5_invalid_price_no_call
    (pid : String) (hpid : pid ≠ "") (w : InitWorld) (proj : Project)
    (hdoc : w.projectDoc = some proj)
    (hbad : proj.price = none ∨ ∃ p, proj.price = some p ∧ p ≤ 0) :
    initiateHandler (some pid) w =
      ([], { status := 400, success := some false, error := some "Invalid project price" }) := by
  rcases hbad with h | ⟨p, hp, hle⟩ <;>
    simp [initiateHandler, jsFalsyStr, String.isEmpty_iff, hpid, hdoc, *]

/-- C10: for every verification request whose body lacks a reference or
whose path lacks a project id, the route responds with HTTP 400 and
`success: false`, no call to the payment provider is made, and the project
record is not modified (the effect trace is empty). -/
theorem c10_missing_reference_rejected
    (projectId reference : Option String) (w : VerifyWorld)
    (h : reference = none ∨ projectId = none) :
    verifyHandler projectId reference w =
      ([], { status := 400, success := some false,
             error := some "Missing reference or project ID" }) := by
  rcases h with h | h <;> simp [verifyHandler, jsFalsyStr, String.isEmpty_iff, h]

/-- C4: for every verification request (with a reference and project id
present) where the provider's verify call resolves with a status other than
its success value `"success"`, the project record's `paymentStatus` is set
to `"failed"`, the route responds with HTTP 400 and `success: false`, and
neither the transfer-recipient call nor the transfer call is made. -/
theorem c4_nonsuccess_marks_failed_no_transfer
    (pid ref : String) (hpid : pid ≠ "") (href : ref ≠ "")
    (w : VerifyWorld) (d : VerifyData)
    (hv : w.verifyResult = .ok d) (hs : d.status ≠ "success") :
    verifyHandler (some pid) (some ref) w =
      ([.callVerify ref, .updateProject { paymentStatus := "failed" }],
       { status := 400, success := some false, error := some "Payment not successful" }) ∧
    (∀ a b, PayAction.callCreateRecipient a b ∉ (verifyHandler (some pid) (some ref) w).1) ∧
    (∀ a r, PayAction.callTransfer a r ∉ (verifyHandler (some pid) (some ref) w).1) := by
  refine ⟨?_, ?_, ?_⟩ <;>
    simp [verifyHandler, jsFalsyStr, String.isEmpty_iff, hpid, href, hv, hs]

/-- C3: in the verification route's success branch (with a recipient
successfully created), the amount passed to the provider's transfer call
equals the verified transaction amount minus a fixed 1.5% deduction of it,
i.e. `amount * (1 - 0.015)`, computed on the minor-currency-unit (kobo)
amount returned by the verify call. -/
theorem c3_transfer_amount_deducts_fee
    (pid ref : String) (hpid : pid ≠ "") (href : ref ≠ "")
    (w : VerifyWorld) (d : VerifyData) (rc : String)
    (hv : w.verifyResult = .ok d) (hs : d.status = "success")
    (hrc : w.recipientResult = .ok rc) :
    PayAction.callTransfer (d.amount * (1 - 0.015)) rc ∈ (verifyHandler (some pid) (some ref) w).1 ∧
    (∀ a r, PayAction.callTransfer a r ∈ (verifyHandler (some pid) (some ref) w).1 →
      a = d.amount * (1 - 0.015) ∧ r = rc) := by
  have hamt : d.amount - d.amount * 0.015 = d.amount * (1 - 0.015) := by ring
  rcases htr : w.transferResult with e | u <;>
    refine ⟨?_, ?_⟩ <;>
    simp [verifyHandler, jsFalsyStr, String.isEmpty_iff, hpid, href, hv, hs, hrc, htr, hamt]

/-- C1: in the verification route's success branch, the recipient-creation
call is attempted, the transfer call is attempted once a recipient was
created, any update marking the record `completed` is preceded in the
effect trace by both calls, and if the transfer call throws the record has
not been marked `completed` by this request. -/
theorem c1_transfer_and_recipient_precede_completed
    (pid ref : String) (hpid : pid ≠ "") (href : ref ≠ "")
    (w : VerifyWorld) (d : VerifyData)
    (hv : w.verifyResult = .ok d) (hs : d.status = "success") :
    PayAction.callCreateRecipient ACCESS_BANK_ACCOUNT BANK_CODE ∈ (verifyHandler (some pid) (some ref) w).1 ∧
    (∀ rc, w.recipientResult = .ok rc →
      PayAction.callTransfer (d.amount - d.amount * 0.015) rc ∈ (verifyHandler (some pid) (some ref) w).1) ∧
    (∀ l1 u l2, (verifyHandler (some pid) (some ref) w).1 = l1 ++ PayAction.updateProject u :: l2 →
      u.paymentStatus = "completed" →
      PayAction.callCreateRecipient ACCESS_BANK_ACCOUNT BANK_CODE ∈ l1 ∧
      ∃ a rc, PayAction.callTransfer a rc ∈ l1) ∧
    (∀ e, w.transferResult = .error e →
      ∀ u, PayAction.updateProject u ∈ (verifyHandler (some pid) (some ref) w).1 →
        u.paymentStatus ≠ "completed") := by
  rcases hrc : w.recipientResult with e | rc
  · refine ⟨?_, ?_, ?_, ?_⟩ <;>
      simp [verifyHandler, jsFalsyStr, String.isEmpty_iff, hpid, href, hv, hs, hrc]
    intro l1 u l2 h
    have hm : PayAction.updateProject u ∈ l1 ++ PayAction.updateProject u :: l2 :=
      List.mem_append_right _ (List.mem_cons_self _ _)
    rw [← h] at hm
    simp at hm
  · rcases htr : w.transferResult with e | uu
    · refine ⟨?_, ?_, ?_, ?_⟩ <;>
        simp [verifyHandler, jsFalsyStr, String.isEmpty_iff, hpid, href, hv, hs, hrc, htr]
      intro l1 u l2 h
      have hm : PayAction.updateProject u ∈ l1 ++ PayAction.updateProject u :: l2 :=
        List.mem_append_right _ (List.mem_cons_self _ _)
      rw [← h] at hm
      simp at hm
    · refine ⟨?_, ?_, ?_, ?_⟩ <;>
        simp [verifyHandler, jsFalsyStr, String.isEmpty_iff, hpid, href, hv, hs, hrc, htr]
      intro l1 u l2 h _
      rcases l1 with _ | ⟨a0, _ | ⟨a1, _ | ⟨a2, _ | ⟨a3, l⟩⟩⟩⟩ <;> simp_all
      exact ⟨d.amount - d.amount * 0.015, rc, by simp [h.2.2.1]⟩

open Plagiarism

/-- Every error result of the `validateTextInput` middleware is a 400 with
`success: false` and an `error` message. -/
lemma validateTextInput_error_400 (body : CheckBody) (r : CheckResp)
    (h : validateTextInput body = .error r) :
    r.status = 400 ∧ r.success = some false ∧ ∃ m, r.error = some m := by
  obtain ⟨btext, blang, bdet⟩ := body
  rcases btext with _ | bv
  · simp only [validateTextInput, Except.error.injEq] at h
    subst h
    exact ⟨rfl, rfl, _, rfl⟩
  · rcases bv with s | _
    · simp only [validateTextInput] at h
      split_ifs at h <;>
        (simp only [Except.error.injEq] at h; subst h; exact ⟨rfl, rfl, _, rfl⟩)
    · simp only [validateTextInput, Except.error.injEq] at h
      subst h
      exact ⟨rfl, rfl, _, rfl⟩

/-- A check body with missing, non-string, too-short or too-long text, or
an unsupported language, is rejected by the `validateTextInput`
middleware. -/
lemma validateTextInput_rejects (body : CheckBody)
    (h : body.text = none ∨ body.text = some .nonString ∨
      (∃ s, body.text = some (.str s) ∧
        (s.length < MIN_TEXT_LENGTH ∨ s.length > MAX_TEXT_LENGTH)) ∨
      SUPPORTED_LANGUAGES.contains (body.language.getD "en") = false) :
    ∃ r, validateTextInput body = .error r := by
  obtain ⟨btext, blang, bdet⟩ := body
  rcases h with h | h | ⟨s, hs, hlen⟩ | h
  · subst h
    exact ⟨_, rfl⟩
  · subst h
    exact ⟨_, rfl⟩
  · simp only [CheckBody.text] at hs
    subst hs
    rcases hlen with hl | hl <;>
      · simp only [validateTextInput]
        split_ifs <;> exact ⟨_, rfl⟩
  · rcases btext with _ | bv
    · exact ⟨_, rfl⟩
    · rcases bv with s | _
      · simp only [validateTextInput]
        split_ifs <;> first | exact ⟨_, rfl⟩ | (exfalso; simp_all)
      · exact ⟨_, rfl⟩

/-- C6: for every plagiarism-check request whose text is missing,
non-string, shorter than the 100-character minimum or longer than the
10000-character maximum, or whose language is not one of the supported
codes (en, es, fr, de), the route responds with HTTP 400 and
`success: false`, and no call to the plagiarism provider is made. -/
theorem c6_invalid_check_input_rejected (body : CheckBody) (w : CheckWorld)
    (h : body.text = none ∨ body.text = some .nonString ∨
      (∃ s, body.text = some (.str s) ∧
        (s.length < MIN_TEXT_LENGTH ∨ s.length > MAX_TEXT_LENGTH)) ∨
      SUPPORTED_LANGUAGES.contains (body.language.getD "en") = false) :
    (checkHandler body w).1 = [] ∧
    (checkHandler body w).2.status = 400 ∧
    (checkHandler body w).2.success = some false := by
  obtain ⟨r, hr⟩ := validateTextInput_rejects body h
  obtain ⟨h400, hsf, -⟩ := validateTextInput_error_400 body r hr
  simp [checkHandler, hr, h400, hsf]

/-- C8: on a successful provider response, the plagiarism-check route
returns `success`, `score`, `plagiarism`, `warnings` and `language`, and
the `matches` field is present in the response if and only if the request
set `detailed` to `true`. -/
theorem c8_check_success_shape (body : CheckBody) (w : CheckWorld)
    (v : ValidInput) (d : QuetextData)
    (hv : validateTextInput body = .ok v)
    (hk : w.apiKeyConfigured = true)
    (hp : w.providerResult = .ok d) :
    (checkHandler body w).2.status = 200 ∧
    (checkHandler body w).2.success = some true ∧
    (checkHandler body w).2.score = some d.score ∧
    (checkHandler body w).2.plagiarism = some d.plagiarism ∧
    (checkHandler body w).2.warnings = some (d.warnings.getD []) ∧
    (checkHandler body w).2.language = some v.language ∧
    ((checkHandler body w).2.«matches».isSome ↔ body.detailed = some true) := by
  refine ⟨?_, ?_, ?_, ?_, ?_, ?_, ?_⟩ <;>
    simp [checkHandler, hv, hk, hp]
  rcases hd : body.detailed with _ | b
  · simp
  · cases b <;> simp

/-- C9: for every plagiarism-check request that passes validation, the text
forwarded to the plagiarism provider is character-for-character the
submitted text: the truncation to `MAX_TEXT_LENGTH` applied before
forwarding never changes the text, because any longer text was already
rejected with 400. -/
theorem c9_forwarded_text_unchanged (body : CheckBody) (w : CheckWorld)
    (v : ValidInput) (hv : validateTextInput body = .ok v) :
    ∃ s, body.text = some (.str s) ∧ v.validatedText = s ∧
      ∀ t lang n, CheckAction.callQuetext t lang n ∈ (checkHandler body w).1 → t = s := by
  have hv0 := hv
  obtain ⟨btext, blang, bdet⟩ := body
  rcases btext with _ | bv
  · simp [validateTextInput] at hv
  · rcases bv with s | _
    · simp only [validateTextInput] at hv
      split_ifs at hv with h1 h2 h3 h4
      have hle : s.length ≤ MAX_TEXT_LENGTH := by omega
      simp only [Except.ok.injEq] at hv
      subst hv
      refine ⟨s, rfl, List.take_of_length_le hle, ?_⟩
      intro t lang n hmem
      by_cases hk : w.apiKeyConfigured <;>
        rcases hpr : w.providerResult with e | dd <;>
        simp [checkHandler, hv0, hk, hpr] at hmem <;>
        rw [hmem.1, List.take_of_length_le hle]
    · simp [validateTextInput] at hv

open Auth Server

/-- C7 counterexample: the signup handler's response to a non-POST request
is a JSON error response (HTTP 405) whose body carries an `error` string
but no `success` field at all, so it does not include `success: false`. -/
theorem c7_counterexample :
    (signupHandler "GET" none .thrown).status = 405 ∧
    (signupHandler "GET" none .thrown).error = some "Method not allowed" ∧
    (signupHandler "GET" none .thrown).success = none := by
  refine ⟨by decide, by decide, by decide⟩

/-- Every payment-route catch message is present. -/
lemma paymentCatch_some (e : AxiosError) (fb : String) :
    ∃ m, paymentCatch e fb = some m := by
  cases e <;> simp [paymentCatch]

/-- Every error result of the check route's catch block carries
`success: false` and an `error` message. -/
lemma checkCatch_envelope (env : String) (e : AxiosError) :
    (checkCatch env e).success = some false ∧ ∃ m, (checkCatch env e).error = some m := by
  cases e <;> simp [checkCatch]

/-- C7 (amended): every error response (HTTP status at least 400) of the
plagiarism check route and of the payment initiate and verify routes
includes `success: false` together with an error string; by contrast the
plagiarism status route's 503 response and the signup handler's error
responses carry an error string without any `success` field, and the
generic error-handling middleware returns a `status`/`message` body with
neither a `success` nor an `error` field. -/
theorem c7_error_envelope_amended :
    (∀ body w, 400 ≤ (checkHandler body w).2.status →
      (checkHandler body w).2.success = some false ∧ ∃ m, (checkHandler body w).2.error = some m) ∧
    (∀ pid w, 400 ≤ (initiateHandler pid w).2.status →
      (initiateHandler pid w).2.success = some false ∧ ∃ m, (initiateHandler pid w).2.error = some m) ∧
    (∀ pid ref w, 400 ≤ (verifyHandler pid ref w).2.status →
      (verifyHandler pid ref w).2.success = some false ∧ ∃ m, (verifyHandler pid ref w).2.error = some m) ∧
    (∀ k probe, (statusHandler k probe).status = 503 →
      (statusHandler k probe).success = none ∧ ∃ m, (statusHandler k probe).error = some m) ∧
    (∀ m b w, 400 ≤ (signupHandler m b w).status →
      (signupHandler m b w).success = none ∧ ∃ s, (signupHandler m b w).error = some s) ∧
    (∀ env e, (errorHandler env e).success = none ∧ (errorHandler env e).error = none) := by
  refine ⟨?_, ?_, ?_, ?_, ?_, ?_⟩
  · intro body w h
    rcases hval : validateTextInput body with r | v
    · obtain ⟨-, hsf, hm⟩ := validateTextInput_error_400 body r hval
      simp [checkHandler, hval, hsf, hm]
    · by_cases hk : w.apiKeyConfigured
      · rcases hpr : w.providerResult with e | dd
        · have := checkCatch_envelope w.nodeEnv e
          simp_all [checkHandler]
        · simp [checkHandler, hval, hk, hpr] at h
      · have := checkCatch_envelope w.nodeEnv (.other "Plagiarism check service is not configured")
        simp_all [checkHandler]
  · intro pid w h
    by_cases h1 : jsFalsyStr pid = true
    · simp [initiateHandler, h1]
    · rcases hdoc : w.projectDoc with _ | proj
      · simp [initiateHandler, h1, hdoc]
      · rcases hp : proj.price with _ | p
        · simp [initiateHandler, h1, hdoc, hp]
        · by_cases h2 : p ≤ 0
          · simp [initiateHandler, h1, hdoc, hp, h2]
          · rcases hinit : w.initResult with e | dd
            · simpa [initiateHandler, h1, hdoc, hp, h2, hinit]
                using paymentCatch_some e "Payment initialization failed"
            · simp [initiateHandler, h1, hdoc, hp, h2, hinit] at h
  · intro pid ref w h
    by_cases h1 : (jsFalsyStr ref || jsFalsyStr pid) = true
    · simp [verifyHandler, h1]
    · rcases hv : w.verifyResult with e | d
      · simpa [verifyHandler, h1, hv, verifyCatchResp]
          using paymentCatch_some e "Payment verification failed"
      · by_cases h2 : d.status = "success"
        · rcases hrc : w.recipientResult with e | rc
          · simpa [verifyHandler, h1, hv, h2, hrc, verifyCatchResp]
              using paymentCatch_some e "Payment verification failed"
          · rcases htr : w.transferResult with e | uu
            · simpa [verifyHandler, h1, hv, h2, hrc, htr, verifyCatchResp]
                using paymentCatch_some e "Payment verification failed"
            · simp [verifyHandler, h1, hv, h2, hrc, htr] at h
        · simp [verifyHandler, h1, hv, h2]
  · intro k probe h
    rcases probe with e | u <;> by_cases hk : k <;> simp_all [statusHandler]
  · intro m b w h
    by_cases h1 : m ≠ "POST"
    · simp [signupHandler, h1]
    · by_cases h2 : (jsFalsyStr (b.getD {}).email || jsFalsyStr (b.getD {}).password) = true
      · simp [signupHandler, h1, h2]
      · rcases w with u | msg | _
        · simp [signupHandler, h1, h2] at h
        · simp [signupHandler, h1, h2]
        · simp [signupHandler, h1, h2]
  · intro env e
    exact ⟨rfl, rfl⟩

/-- Witness for C2: a concrete project priced 100 whose initialize call
succeeds; the persisted update carries `paymentStatus = "initiated"` and
`totalAmount = 100 * (1 + 1.5/100)`. -/
theorem c2_witness :
    ("p1" : String) ≠ "" ∧
    (InitWorld.mk (some { price := some 100, authorEmail := some "a@b.c" })
        (.ok { authorization_url := "url", reference := "REFX" }) 7).projectDoc =
      some { price := some 100, authorEmail := some "a@b.c" } ∧
    (Project.price { price := some 100, authorEmail := some "a@b.c" }) = some 100 ∧
    (0 : ℚ) < 100 ∧
    (∃ u, InitAction.updateProject u ∈
        (initiateHandler (some "p1")
          (InitWorld.mk (some { price := some 100, authorEmail := some "a@b.c" })
            (.ok { authorization_url := "url", reference := "REFX" }) 7)).1 ∧
      u.paymentStatus = "initiated" ∧
      u.totalAmount = 100 * (1 + TRANSACTION_FEE_PERCENTAGE / 100) ∧
      (initiateHandler (some "p1")
        (InitWorld.mk (some { price := some 100, authorEmail := some "a@b.c" })
          (.ok { authorization_url := "url", reference := "REFX" }) 7)).2.status = 200 ∧
      (initiateHandler (some "p1")
        (InitWorld.mk (some { price := some 100, authorEmail := some "a@b.c" })
          (.ok { authorization_url := "url", reference := "REFX" }) 7)).2.success = some true) := by
  refine ⟨by decide, rfl, rfl, by norm_num, ?_⟩
  exact c2_initiate_persists_initiated_total "p1" (by decide) _
    { price := some 100, authorEmail := some "a@b.c" } 100 rfl rfl (by norm_num)
    { authorization_url := "url", reference := "REFX" } rfl

/-- Witness for C5: a concrete project whose price is negative; the
initiate route returns 400 and issues no effect. -/
theorem c5_witness :
    ("p1" : String) ≠ "" ∧
    (InitWorld.mk (some { price := some (-5) })
        (.ok { authorization_url := "url", reference := "REFX" }) 7).projectDoc =
      some { price := some (-5) } ∧
    ((Project.price { price := some (-5) }) = none ∨
      ∃ p, (Project.price { price := some (-5) }) = some p ∧ p ≤ 0) ∧
    initiateHandler (some "p1")
        (InitWorld.mk (some { price := some (-5) })
          (.ok { authorization_url := "url", reference := "REFX" }) 7) =
      ([], { status := 400, success := some false, error := some "Invalid project price" }) := by
  refine ⟨by decide, rfl, Or.inr ⟨-5, rfl, by norm_num⟩, ?_⟩
  exact c5_invalid_price_no_call "p1" (by decide) _ { price := some (-5) } rfl
    (Or.inr ⟨-5, rfl, by norm_num⟩)

/-- Witness for C10: a verification request with no reference in the body
is rejected with 400 and no effect. -/
theorem c10_witness :
    ((none : Option String) = none ∨ (some "p1" : Option String) = none) ∧
    verifyHandler (some "p1") none
        (VerifyWorld.mk (.error (.other "never"))
          (.error (.other "never")) (.error (.other "never"))) =
      ([], { status := 400, success := some false,
             error := some "Missing reference or project ID" }) := by
  refine ⟨Or.inl rfl, ?_⟩
  exact c10_missing_reference_rejected (some "p1") none _ (Or.inl rfl)

/-- Witness for C4: a verification whose provider status is `"failed"`;
the record is marked failed, the route answers 400, and no recipient or
transfer call appears in the trace. -/
theorem c4_witness :
    ("p1" : String) ≠ "" ∧ ("r1" : String) ≠ "" ∧
    (VerifyWorld.mk
        (.ok { status := "failed", amount := 500000, reference := "r",
               paid_at := "t", authorization_bank := "GTB" })
        (.ok "RCP_1") (.ok ())).verifyResult =
      .ok { status := "failed", amount := 500000, reference := "r",
            paid_at := "t", authorization_bank := "GTB" } ∧
    (VerifyData.status { status := "failed", amount := 500000, reference := "r",
                         paid_at := "t", authorization_bank := "GTB" }) ≠ "success" ∧
    verifyHandler (some "p1") (some "r1")
        (VerifyWorld.mk
          (.ok { status := "failed", amount := 500000, reference := "r",
                 paid_at := "t", authorization_bank := "GTB" })
          (.ok "RCP_1") (.ok ())) =
      ([.callVerify "r1", .updateProject { paymentStatus := "failed" }],
       { status := 400, success := some false, error := some "Payment not successful" }) := by
  refine ⟨by decide, by decide, rfl, by decide, ?_⟩
  exact (c4_nonsuccess_marks_failed_no_transfer "p1" "r1" (by decide) (by decide) _
    { status := "failed", amount := 500000, reference := "r",
      paid_at := "t", authorization_bank := "GTB" } rfl (by decide)).1

/-- Witness for C3: a concrete verified amount of 500000 kobo; the transfer
call in the trace carries `500000 * (1 - 0.015)`. -/
theorem c3_witness :
    ("p1" : String) ≠ "" ∧ ("r1" : String) ≠ "" ∧
    (VerifyWorld.mk
        (.ok { status := "success", amount := 500000, reference := "r",
               paid_at := "t", authorization_bank := "GTB" })
        (.ok "RCP_1") (.ok ())).verifyResult =
      .ok { status := "success", amount := 500000, reference := "r",
            paid_at := "t", authorization_bank := "GTB" } ∧
    (VerifyData.status { status := "success", amount := 500000, reference := "r",
                         paid_at := "t", authorization_bank := "GTB" }) = "success" ∧
    (VerifyWorld.mk
        (.ok { status := "success", amount := 500000, reference := "r",
               paid_at := "t", authorization_bank := "GTB" })
        (.ok "RCP_1") (.ok ())).recipientResult = .ok "RCP_1" ∧
    PayAction.callTransfer ((500000 : ℚ) * (1 - 0.015)) "RCP_1" ∈
      (verifyHandler (some "p1") (some "r1")
        (VerifyWorld.mk
          (.ok { status := "success", amount := 500000, reference := "r",
                 paid_at := "t", authorization_bank := "GTB" })
          (.ok "RCP_1") (.ok ()))).1 := by
  refine ⟨by decide, by decide, rfl, rfl, rfl, ?_⟩
  exact (c3_transfer_amount_deducts_fee "p1" "r1" (by decide) (by decide) _
    { status := "success", amount := 500000, reference := "r",
      paid_at := "t", authorization_bank := "GTB" } "RCP_1" rfl rfl rfl).1

/-- Witness for C1: a concrete success verification whose transfer call
throws; the recipient call was attempted, the transfer call was attempted,
and no update in the trace marks the record `completed`. -/
theorem c1_witness :
    ("p1" : String) ≠ "" ∧ ("r1" : String) ≠ "" ∧
    (VerifyWorld.mk
        (.ok { status := "success", amount := 500000, reference := "r",
               paid_at := "t", authorization_bank := "GTB" })
        (.ok "RCP_1") (.error (.other "transfer failed"))).verifyResult =
      .ok { status := "success", amount := 500000, reference := "r",
            paid_at := "t", authorization_bank := "GTB" } ∧
    (VerifyData.status { status := "success", amount := 500000, reference := "r",
                         paid_at := "t", authorization_bank := "GTB" }) = "success" ∧
    PayAction.callCreateRecipient ACCESS_BANK_ACCOUNT BANK_CODE ∈
      (verifyHandler (some "p1") (some "r1")
        (VerifyWorld.mk
          (.ok { status := "success", amount := 500000, reference := "r",
                 paid_at := "t", authorization_bank := "GTB" })
          (.ok "RCP_1") (.error (.other "transfer failed")))).1 ∧
    PayAction.callTransfer ((500000 : ℚ) - 500000 * 0.015) "RCP_1" ∈
      (verifyHandler (some "p1") (some "r1")
        (VerifyWorld.mk
          (.ok { status := "success", amount := 500000, reference := "r",
                 paid_at := "t", authorization_bank := "GTB" })
          (.ok "RCP_1") (.error (.other "transfer failed")))).1 ∧
    (∀ u, PayAction.updateProject u ∈
        (verifyHandler (some "p1") (some "r1")
          (VerifyWorld.mk
            (.ok { status := "success", amount := 500000, reference := "r",
                   paid_at := "t", authorization_bank := "GTB" })
            (.ok "RCP_1") (.error (.other "transfer failed")))).1 →
      u.paymentStatus ≠ "completed") := by
  refine ⟨by decide, by decide, rfl, rfl, ?_, ?_, ?_⟩
  · exact (c1_transfer_and_recipient_precede_completed "p1" "r1" (by decide) (by decide) _
      { status := "success", amount := 500000, reference := "r",
        paid_at := "t", authorization_bank := "GTB" } rfl rfl).1
  · exact (c1_transfer_and_recipient_precede_completed "p1" "r1" (by decide) (by decide) _
      { status := "success", amount := 500000, reference := "r",
        paid_at := "t", authorization_bank := "GTB" } rfl rfl).2.1 "RCP_1" rfl
  · exact (c1_transfer_and_recipient_precede_completed "p1" "r1" (by decide) (by decide) _
      { status := "success", amount := 500000, reference := "r",
        paid_at := "t", authorization_bank := "GTB" } rfl rfl).2.2.2
      (.other "transfer failed") rfl

/-- Witness for C6: a 10-character text is below the 100-character minimum;
the check route answers 400 with no provider call. -/
theorem c6_witness :
    ((CheckBody.text { text := some (.str (List.replicate 10 'a')) }) = none ∨
      (CheckBody.text { text := some (.str (List.replicate 10 'a')) }) = some .nonString ∨
      (∃ s, (CheckBody.text { text := some (.str (List.replicate 10 'a')) }) = some (.str s) ∧
        (s.length < MIN_TEXT_LENGTH ∨ s.length > MAX_TEXT_LENGTH)) ∨
      SUPPORTED_LANGUAGES.contains
        ((CheckBody.language { text := some (.str (List.replicate 10 'a')) }).getD "en") = false) ∧
    (checkHandler { text := some (.str (List.replicate 10 'a')) }
        (CheckWorld.mk true "production" (.error (.other "never")))).1 = [] ∧
    (checkHandler { text := some (.str (List.replicate 10 'a')) }
        (CheckWorld.mk true "production" (.error (.other "never")))).2.status = 400 ∧
    (checkHandler { text := some (.str (List.replicate 10 'a')) }
        (CheckWorld.mk true "production" (.error (.other "never")))).2.success = some false := by
  refine ⟨Or.inr (Or.inr (Or.inl ⟨List.replicate 10 'a', rfl, Or.inl (by decide)⟩)), ?_⟩
  exact c6_invalid_check_input_rejected { text := some (.str (List.replicate 10 'a')) } _
    (Or.inr (Or.inr (Or.inl ⟨List.replicate 10 'a', rfl, Or.inl (by decide)⟩)))

/-- Witness for C7 (amended): at a concrete bad check request the route
answers with `success: false` and an error message, and the signup handler
at a concrete non-POST request answers an error without a `success`
field. -/
theorem c7_witness :
    (400 ≤ (checkHandler { text := none }
        (CheckWorld.mk true "production" (.error (.other "never")))).2.status ∧
      (checkHandler { text := none }
          (CheckWorld.mk true "production" (.error (.other "never")))).2.success = some false ∧
      ∃ m, (checkHandler { text := none }
          (CheckWorld.mk true "production" (.error (.other "never")))).2.error = some m) ∧
    (400 ≤ (signupHandler "GET" none .thrown).status ∧
      (signupHandler "GET" none .thrown).success = none ∧
      ∃ s, (signupHandler "GET" none .thrown).error = some s) := by
  refine ⟨⟨by decide, ?_⟩, ⟨by decide, ?_⟩⟩
  · exact c7_error_envelope_amended.1 { text := none }
      (CheckWorld.mk true "production" (.error (.other "never"))) (by decide)
  · exact c7_error_envelope_amended.2.2.2.2.1 "GET" none .thrown (by decide)

set_option maxRecDepth 10000 in
/-- Witness for C8: a 150-character text with `detailed := true`; the
success response carries the provider fields and a `matches` field. -/
theorem c8_witness :
    validateTextInput
        { text := some (.str (List.replicate 150 'a')), language := some "en",
          detailed := some true } =
      .ok { validatedText := List.take MAX_TEXT_LENGTH (List.replicate 150 'a'),
            language := "en" } ∧
    (CheckWorld.mk true "production"
        (.ok { score := 42, plagiarism := true,
               warnings := some ["w1"], «matches» := some ["m1"] })).apiKeyConfigured = true ∧
    (CheckWorld.mk true "production"
        (.ok { score := 42, plagiarism := true,
               warnings := some ["w1"], «matches» := some ["m1"] })).providerResult =
      .ok { score := 42, plagiarism := true, warnings := some ["w1"], «matches» := some ["m1"] } ∧
    (checkHandler
        { text := some (.str (List.replicate 150 'a')), language := some "en",
          detailed := some true }
        (CheckWorld.mk true "production"
          (.ok { score := 42, plagiarism := true,
                 warnings := some ["w1"], «matches» := some ["m1"] }))).2.status = 200 ∧
    ((checkHandler
        { text := some (.str (List.replicate 150 'a')), language := some "en",
          detailed := some true }
        (CheckWorld.mk true "production"
          (.ok { score := 42, plagiarism := true,
                 warnings := some ["w1"], «matches» := some ["m1"] }))).2.«matches».isSome ↔
      (CheckBody.detailed
        { text := some (.str (List.replicate 150 'a')), language := some "en",
          detailed := some true }) = some true) := by
  refine ⟨rfl, rfl, rfl, ?_, ?_⟩
  · exact (c8_check_success_shape
      { text := some (.str (List.replicate 150 'a')), language := some "en",
        detailed := some true } _
      { validatedText := List.take MAX_TEXT_LENGTH (List.replicate 150 'a'), language := "en" }
      { score := 42, plagiarism := true, warnings := some ["w1"], «matches» := some ["m1"] }
      (rfl) rfl rfl).1
  · exact (c8_check_success_shape
      { text := some (.str (List.replicate 150 'a')), language := some "en",
        detailed := some true } _
      { validatedText := List.take MAX_TEXT_LENGTH (List.replicate 150 'a'), language := "en" }
      { score := 42, plagiarism := true, warnings := some ["w1"], «matches» := some ["m1"] }
      (rfl) rfl rfl).2.2.2.2.2.2

set_option maxRecDepth 10000 in
/-- Witness for C9: a 150-character text passes validation and is forwarded
verbatim to the provider. -/
theorem c9_witness :
    validateTextInput
        { text := some (.str (List.replicate 150 'a')), language := some "en",
          detailed := some false } =
      .ok { validatedText := List.take MAX_TEXT_LENGTH (List.replicate 150 'a'),
            language := "en" } ∧
    (∃ s, (CheckBody.text
        { text := some (.str (List.replicate 150 'a')), language := some "en",
          detailed := some false }) = some (.str s) ∧
      (ValidInput.validatedText
        { validatedText := List.take MAX_TEXT_LENGTH (List.replicate 150 'a'),
          language := "en" }) = s ∧
      ∀ t lang n, CheckAction.callQuetext t lang n ∈
          (checkHandler
            { text := some (.str (List.replicate 150 'a')), language := some "en",
              detailed := some false }
            (CheckWorld.mk true "production"
              (.ok { score := 42, plagiarism := true }))).1 → t = s) := by
  refine ⟨rfl, ?_⟩
  exact c9_forwarded_text_unchanged
    { text := some (.str (List.replicate 150 'a')), language := some "en",
      detailed := some false }
    (CheckWorld.mk true "production" (.ok { score := 42, plagiarism := true }))
    { validatedText := List.take MAX_TEXT_LENGTH (List.replicate 150 'a'), language := "en" }
    (rfl)

end ResearchX
